import Mathlib

/-!
Verification of the enrollment intake backend (`src/backend/server.js`).

The development shallowly embeds the enrollment intake pipeline: the
`sanitizeInput` utility, the `validateEnrollmentData` validator, the
duplicate pre-check, the Mongoose `Student` model (schema casting,
schema validation, unique indexes), the `POST /send` handler, the
`GET /api/students/:id` handler, and the Express layer stacks of
`POST /send` and `POST /api/route`.

Strings are modelled as `List Char`; JavaScript numbers that the code
uses as millisecond timestamps are modelled as `Int` (all arithmetic the
code performs on them is exact in IEEE doubles for the magnitudes that
occur, so integer `fdiv` coincides with `Math.floor` of the float
quotient in the ranges exercised here).
-/

namespace Enroll

/-- JavaScript strings, modelled as lists of characters. -/
abbrev Str := List Char

/-- Coerce a Lean string literal to the `Str` model. -/
def toStr (s : String) : Str := s.data

/-- The whitespace characters recognised by JavaScript `trim` and the
regex class `\s`, restricted to the characters that can occur in this
service's inputs (ASCII whitespace and NBSP). -/
def jsWs (c : Char) : Bool :=
  c = ' ' || c = '\t' || c = '\n' || c = '\r' ||
  c = Char.ofNat 11 || c = Char.ofNat 12 || c = Char.ofNat 160

/-- JavaScript `String.prototype.trim`. -/
def jsTrim (s : Str) : Str :=
  ((s.dropWhile jsWs).reverse.dropWhile jsWs).reverse

/-- The characters removed by `sanitizeInput`'s
`replace(/[<>\"']/g, '')`: `<`, `>`, double quote, single quote. -/
def badChars : List Char := [Char.ofNat 60, Char.ofNat 62, Char.ofNat 34, Char.ofNat 39]

/-- `replace(/[<>\"']/g, '')` from `sanitizeInput`. -/
def removeBadChars (s : Str) : Str := s.filter (fun c => !badChars.contains c)

/-- The string branch of `sanitizeInput`: `input.trim().replace(/[<>\"']/g, '')`. -/
def sanitizeStr (s : Str) : Str := removeBadChars (jsTrim s)

/-- A JSON value as delivered by `express.json()` into `req.body`. -/
inductive JSValue where
  | vstr (s : Str)
  | vnum (n : Int)
  | vbool (b : Bool)
  | vnull
  | vobj (fields : List (Str × JSValue))

/-- `sanitizeInput` (server.js lines 820-825): strings are trimmed and have
`< > \" '` removed; every non-string input is returned unchanged. -/
def sanitizeInput : JSValue → JSValue
  | .vstr s => .vstr (sanitizeStr s)
  | v => v

/-! ### The enrollment form and the validator -/

/-- The twelve form fields of an enrollment submission, as strings (the
enrollment form posts JSON string values). -/
structure EnrollForm where
  firstName : Str
  lastName : Str
  email : Str
  phone : Str
  idnumber : Str
  dateOfBirth : Str
  course : Str
  address : Str
  city : Str
  zipCode : Str
  emergencyContact : Str
  emergencyPhone : Str
deriving DecidableEq

/-- The names of the required fields, in the order of the
`requiredFields` array in `validateEnrollmentData`. -/
inductive FieldName where
  | firstName | lastName | email | phone | idnumber | dateOfBirth
  | course | address | city | zipCode | emergencyContact | emergencyPhone
deriving DecidableEq

/-- The string key of a field, as used in the `\x7bfield\x7d is required`
message. -/
def fieldLabel : FieldName → Str
  | .firstName => toStr "firstName"
  | .lastName => toStr "lastName"
  | .email => toStr "email"
  | .phone => toStr "phone"
  | .idnumber => toStr "idnumber"
  | .dateOfBirth => toStr "dateOfBirth"
  | .course => toStr "course"
  | .address => toStr "address"
  | .city => toStr "city"
  | .zipCode => toStr "zipCode"
  | .emergencyContact => toStr "emergencyContact"
  | .emergencyPhone => toStr "emergencyPhone"

/-- `data[field]` for each required field. -/
def getField : FieldName → EnrollForm → Str
  | .firstName => EnrollForm.firstName
  | .lastName => EnrollForm.lastName
  | .email => EnrollForm.email
  | .phone => EnrollForm.phone
  | .idnumber => EnrollForm.idnumber
  | .dateOfBirth => EnrollForm.dateOfBirth
  | .course => EnrollForm.course
  | .address => EnrollForm.address
  | .city => EnrollForm.city
  | .zipCode => EnrollForm.zipCode
  | .emergencyContact => EnrollForm.emergencyContact
  | .emergencyPhone => EnrollForm.emergencyPhone

/-- The `requiredFields` array of `validateEnrollmentData`, in source order. -/
def requiredFields : List FieldName :=
  [.firstName, .lastName, .email, .phone, .idnumber, .dateOfBirth,
   .course, .address, .city, .zipCode, .emergencyContact, .emergencyPhone]

/-- The sanitization loop of the `/send` handler applied to the form:
`Object.keys(req.body).forEach(key => sanitizedData[key] = sanitizeInput(req.body[key]))`. -/
def sanitizeForm (b : EnrollForm) : EnrollForm where
  firstName := sanitizeStr b.firstName
  lastName := sanitizeStr b.lastName
  email := sanitizeStr b.email
  phone := sanitizeStr b.phone
  idnumber := sanitizeStr b.idnumber
  dateOfBirth := sanitizeStr b.dateOfBirth
  course := sanitizeStr b.course
  address := sanitizeStr b.address
  city := sanitizeStr b.city
  zipCode := sanitizeStr b.zipCode
  emergencyContact := sanitizeStr b.emergencyContact
  emergencyPhone := sanitizeStr b.emergencyPhone

/-- Membership of a character in the regex class `[\d\s\-\+\(\)]`. -/
def phoneClassChar (c : Char) : Bool :=
  c.isDigit || jsWs c || c = '-' || c = '+' || c = '(' || c = ')'

/-- The phone check `/^[\d\s\-\+\(\)]\x7b10,\x7d$/.test(v.replace(/\s/g, ''))`:
after deleting whitespace, at least ten characters, all drawn from the
class. -/
def phoneOk (s : Str) : Bool :=
  let t := s.filter (fun c => !jsWs c)
  10 ≤ t.length && t.all phoneClassChar

/-- Models `validator.isEmail` from the npm `validator` library at the
level of detail this code relies on: a non-empty local part of ordinary
address characters, a single `@`, and a dot-separated domain whose last
label is alphabetic of length at least two. -/
def localChar (c : Char) : Bool :=
  c.isAlphanum || c = '.' || c = '_' || c = '%' || c = '+' || c = '-'

/-- A domain label: non-empty, alphanumerics and hyphens. -/
def labelOk (l : Str) : Bool :=
  decide (l ≠ []) && l.all (fun c => c.isAlphanum || c = '-')

/-- Split a list at every occurrence of a separator. -/
def splitOnChar (sep : Char) : Str → List Str
  | [] => [[]]
  | c :: rest =>
    let r := splitOnChar sep rest
    if c = sep then [] :: r
    else match r with
      | [] => [[c]]
      | h :: t => (c :: h) :: t

/-- Models `validator.isEmail` (see `localChar`). -/
def isEmail (s : Str) : Bool :=
  match splitOnChar '@' s with
  | [local_, domain] =>
    decide (local_ ≠ []) && local_.all localChar &&
    (match splitOnChar '.' domain with
     | [] => false
     | labels =>
       decide (2 ≤ labels.length) && labels.all labelOk &&
       (match labels.getLast? with
        | some tld => decide (2 ≤ tld.length) && tld.all Char.isAlpha
        | none => false))
  | _ => false

/-! ### Date parsing and age -/

/-- Leap year in the proleptic Gregorian calendar. -/
def isLeap (y : Nat) : Bool := y % 4 = 0 && (y % 100 ≠ 0 || y % 400 = 0)

/-- Days in a month (1-indexed). -/
def daysInMonth (y m : Nat) : Nat :=
  if m = 2 then (if isLeap y then 29 else 28)
  else if m = 4 || m = 6 || m = 9 || m = 11 then 30
  else 31

/-- Days from the Unix epoch to a civil date (Gregorian), the standard
days-from-civil computation. -/
def daysFromCivil (y : Nat) (m d : Nat) : Int :=
  let yy : Int := if m ≤ 2 then (y : Int) - 1 else (y : Int)
  let era : Int := yy.fdiv 400
  let yoe : Int := yy - era * 400
  let mp : Nat := if 2 < m then m - 3 else m + 9
  let doy : Int := ((153 * (mp : Int) + 2).fdiv 5) + (d : Int) - 1
  let doe : Int := yoe * 365 + yoe.fdiv 4 - yoe.fdiv 100 + doy
  era * 146097 + doe - 719468

/-- Value of a decimal digit character. -/
def digitVal (c : Char) : Nat := c.toNat - 48

/-- Models the JavaScript `new Date(string)` constructor for the ISO 8601
date-only strings the enrollment form submits (`YYYY-MM-DD`, interpreted
as UTC midnight): `some` milliseconds since the epoch when the string is
a well-formed calendar date, `none` (Invalid Date, whose time value is
NaN) otherwise.  Other formats JavaScript would accept are outside the
model and map to `none`. -/
def jsParseDate (s : Str) : Option Int :=
  match s with
  | [y1, y2, y3, y4, h1, m1, m2, h2, d1, d2] =>
    if h1 = '-' && h2 = '-' && y1.isDigit && y2.isDigit && y3.isDigit && y4.isDigit &&
        m1.isDigit && m2.isDigit && d1.isDigit && d2.isDigit then
      let y := 1000 * digitVal y1 + 100 * digitVal y2 + 10 * digitVal y3 + digitVal y4
      let mo := 10 * digitVal m1 + digitVal m2
      let da := 10 * digitVal d1 + digitVal d2
      if 1 ≤ mo && mo ≤ 12 && 1 ≤ da && da ≤ daysInMonth y mo then
        some (86400000 * daysFromCivil y mo da)
      else none
    else none
  | _ => none

/-- `Math.floor((now − birthDate) / (365.25 * 24 * 60 * 60 * 1000))`:
age in whole years.  `365.25 * 24 * 60 * 60 * 1000 = 31557600000`
exactly; for the millisecond magnitudes occurring here the IEEE double
quotient floors to the same integer as exact floor division. -/
def jsAge (now dobMs : Int) : Int := (now - dobMs).fdiv 31557600000

/-! ### validateEnrollmentData (server.js lines 827-868) -/

/-- The suffix of a presence error message. -/
def reqSuffix : Str := toStr " is required"

/-- The presence-check loop: for each required field in order, push
`\x7bfield\x7d is required` when the value is falsy or trims to the empty
string (for the string values modelled here: trims to empty). -/
def requiredErrors (d : EnrollForm) : List Str :=
  requiredFields.filterMap fun f =>
    if jsTrim (getField f d) = [] then some (fieldLabel f ++ reqSuffix) else none

/-- Error message of the email format check. -/
def emailErrMsg : Str := toStr "Please provide a valid email address"

/-- Error message of the phone format check. -/
def phoneErrMsg : Str := toStr "Please provide a valid phone number"

/-- Error message of the emergency phone format check. -/
def ephoneErrMsg : Str := toStr "Please provide a valid emergency phone number"

/-- Error message of the age bound check. -/
def ageErrMsg : Str := toStr "Age must be between 16 and 100 years"

/-- The date-of-birth branch: when `data.dateOfBirth` is truthy, compute
the age from `new Date(data.dateOfBirth)`; on an Invalid Date the age is
NaN and both bound comparisons are false, so no error is pushed. -/
def dobErrors (now : Int) (d : EnrollForm) : List Str :=
  if d.dateOfBirth ≠ [] then
    match jsParseDate d.dateOfBirth with
    | some ms => if jsAge now ms < 16 || 100 < jsAge now ms then [ageErrMsg] else []
    | none => []
  else []

/-- `validateEnrollmentData` (server.js lines 827-868): collects, in
order, the presence errors, the email format error, the two phone format
errors, and the age bound error. -/
def validateEnrollmentData (now : Int) (d : EnrollForm) : List Str :=
  requiredErrors d
  ++ (if d.email ≠ [] && !isEmail d.email then [emailErrMsg] else [])
  ++ (if d.phone ≠ [] && !phoneOk d.phone then [phoneErrMsg] else [])
  ++ (if d.emergencyPhone ≠ [] && !phoneOk d.emergencyPhone then [ephoneErrMsg] else [])
  ++ dobErrors now d

/-! ### The Student model and the Record Store -/

/-- `String.prototype.toLowerCase`, on the character sets occurring here. -/
def toLowerStr (s : Str) : Str := s.map Char.toLower

/-- `String.prototype.toUpperCase`, on the character sets occurring here. -/
def toUpperStr (s : Str) : Str := s.map Char.toUpper

/-- JavaScript `s.slice(-n)`: the last `n` characters (the whole string
when it is shorter). -/
def takeLast (n : Nat) (s : Str) : Str := s.drop (s.length - n)

/-- A persisted enrollment record (a `Student` document). -/
structure StudentRec where
  id : Str
  firstName : Str
  lastName : Str
  email : Str
  phone : Str
  idnumber : Str
  /-- Milliseconds since the epoch; `none` is an Invalid Date (NaN time
  value), which Mongoose rejects at validation time. -/
  dateOfBirth : Option Int
  course : Str
  address : Str
  city : Str
  zipCode : Str
  emergencyContact : Str
  emergencyPhone : Str
  status : Str
  createdAt : Int
  ipAddress : Str
  userAgent : Str
deriving DecidableEq

/-- The `studentData` object assembled by the `/send` handler before
`new Student(studentData)`. -/
structure StudentData where
  firstName : Str
  lastName : Str
  email : Str
  phone : Str
  idnumber : Str
  dateOfBirth : Option Int
  course : Str
  address : Str
  city : Str
  zipCode : Str
  emergencyContact : Str
  emergencyPhone : Str
  ipAddress : Str
  userAgent : Str
deriving DecidableEq

/-- `studentData` from the sanitized form (server.js lines 930-945):
email lower-cased, date of birth passed through `new Date`. -/
def mkStudentData (sd : EnrollForm) (ip ua : Str) : StudentData where
  firstName := sd.firstName
  lastName := sd.lastName
  email := toLowerStr sd.email
  phone := sd.phone
  idnumber := sd.idnumber
  dateOfBirth := jsParseDate sd.dateOfBirth
  course := sd.course
  address := sd.address
  city := sd.city
  zipCode := sd.zipCode
  emergencyContact := sd.emergencyContact
  emergencyPhone := sd.emergencyPhone
  ipAddress := ip
  userAgent := ua

/-- Mongoose document construction: the schema's `trim: true` setters
trim every string field and the `lowercase: true` setter lower-cases the
email; `status` defaults to `pending` and `timestamps: true` sets
`createdAt` to the save time. -/
def mongooseCast (newId : Str) (now : Int) (d : StudentData) : StudentRec where
  id := newId
  firstName := jsTrim d.firstName
  lastName := jsTrim d.lastName
  email := jsTrim (toLowerStr d.email)
  phone := jsTrim d.phone
  idnumber := jsTrim d.idnumber
  dateOfBirth := d.dateOfBirth
  course := jsTrim d.course
  address := jsTrim d.address
  city := jsTrim d.city
  zipCode := jsTrim d.zipCode
  emergencyContact := jsTrim d.emergencyContact
  emergencyPhone := jsTrim d.emergencyPhone
  status := toStr "pending"
  createdAt := now
  ipAddress := d.ipAddress
  userAgent := d.userAgent

/-- The fixed course catalog of the schema's `enum`. -/
def courseCatalog : List Str :=
  [toStr "Computer Science", toStr "Business Administration", toStr "Engineering",
   toStr "Medicine", toStr "Arts & Design", toStr "Psychology", toStr "Mathematics",
   toStr "Literature", toStr "Information Technology", toStr "Project Management"]

/-- Mongoose schema validation of a `Student` document (the validators
attached to `studentSchema`), returning the messages of the violated
validators.  Format validators run only when the value is present, after
the `required` check, as Mongoose does. -/
def schemaErrors (now : Int) (r : StudentRec) : List Str :=
  (if r.firstName = [] then [toStr "First name is required"]
   else (if r.firstName.length < 2 then [toStr "First name must be at least 2 characters"] else [])
     ++ (if 50 < r.firstName.length then [toStr "First name cannot exceed 50 characters"] else []))
  ++ (if r.lastName = [] then [toStr "Last name is required"]
   else (if r.lastName.length < 2 then [toStr "Last name must be at least 2 characters"] else [])
     ++ (if 50 < r.lastName.length then [toStr "Last name cannot exceed 50 characters"] else []))
  ++ (if r.email = [] then [toStr "Email is required"]
   else if !isEmail r.email then [toStr "Please provide a valid email"] else [])
  ++ (if r.phone = [] then [toStr "Phone number is required"]
   else if !phoneOk r.phone then [toStr "Please provide a valid phone number"] else [])
  ++ (if r.idnumber = [] then [toStr "ID number is required"]
   else if r.idnumber.length < 6 then [toStr "ID number must be at least 6 characters"] else [])
  ++ (match r.dateOfBirth with
      | none => [toStr "Date of birth is required"]
      | some ms => if jsAge now ms < 16 || 100 < jsAge now ms
          then [toStr "Age must be between 16 and 100 years"] else [])
  ++ (if r.course = [] then [toStr "Course selection is required"]
   else if !courseCatalog.contains r.course then [toStr "Please select a valid course"] else [])
  ++ (if r.address = [] then [toStr "Address is required"]
   else if r.address.length < 10 then [toStr "Please provide a complete address"] else [])
  ++ (if r.city = [] then [toStr "City is required"] else [])
  ++ (if r.zipCode = [] then [toStr "ZIP code is required"] else [])
  ++ (if r.emergencyContact = [] then [toStr "Emergency contact is required"] else [])
  ++ (if r.emergencyPhone = [] then [toStr "Emergency phone is required"]
   else if !phoneOk r.emergencyPhone then [toStr "Please provide a valid emergency phone number"] else [])

/-- The failure modes of `newStudent.save()` that the `/send` handler
distinguishes: a Mongo duplicate-key error (`error.code === 11000`, with
the offending index's field name in `error.keyValue`) and a Mongoose
`ValidationError` (with the violated validators' messages). -/
inductive SaveErr where
  | dupKey (field : Str)
  | invalid (msgs : List Str)
deriving DecidableEq

/-- Equality of `save()` outcomes is decidable. -/
instance : DecidableEq (Except SaveErr StudentRec) := fun x y =>
  match x, y with
  | .ok a, .ok b =>
    if h : a = b then .isTrue (by rw [h]) else .isFalse (by simp [h])
  | .error e, .error f =>
    if h : e = f then .isTrue (by rw [h]) else .isFalse (by simp [h])
  | .ok _, .error _ => .isFalse (by simp)
  | .error _, .ok _ => .isFalse (by simp)

/-- The Record Store state: the persisted `Student` documents in
insertion order. -/
abbrev Store := List StudentRec

/-- `new Student(studentData)` followed by `newStudent.save()`: cast,
validate against the schema, then insert, where the unique indexes on
`email` and `idnumber` reject a document whose key an existing document
already holds (the authoritative uniqueness enforcement). -/
def createStudent (st : Store) (newId : Str) (now : Int) (d : StudentData) :
    Except SaveErr StudentRec :=
  let r := mongooseCast newId now d
  let es := schemaErrors now r
  if 0 < es.length then .error (.invalid es)
  else if st.any (fun x => x.email = r.email) then .error (.dupKey (toStr "email"))
  else if st.any (fun x => x.idnumber = r.idnumber) then .error (.dupKey (toStr "idnumber"))
  else .ok r

/-- The duplicate pre-check predicate of
`Student.findOne(\x7b$or: [\x7bemail\x7d, \x7bidnumber\x7d]\x7d)`. -/
def dupPred (email idnumber : Str) (r : StudentRec) : Bool :=
  r.email = email || r.idnumber = idnumber

/-! ### Responses and the POST /send handler -/

/-- The `data` object of the 201 success response. -/
structure RespData where
  studentId : Str
  applicationId : Str
  email : Str
  course : Str
  status : Str
  submissionTime : Int
deriving DecidableEq

/-- A JSON response: HTTP status plus the body fields the handlers emit
(absent JSON keys are the empty list / `none`). -/
structure Response where
  status : Nat
  success : Bool
  message : Str
  errors : List Str
  code : Option Str
  rdata : Option RespData
deriving DecidableEq

/-- The `DUPLICATE_ENTRY` code. -/
def dupEntryCode : Str := toStr "DUPLICATE_ENTRY"

/-- The 400 response of the validation-failure branch. -/
def validationFailedResp (errs : List Str) : Response :=
  ⟨400, false, toStr "Validation failed", errs, none, none⟩

/-- The duplicate message: `A student with this \x7bfield\x7d already exists`. -/
def dupMsg (field : Str) : Str :=
  toStr "A student with this " ++ field ++ toStr " already exists"

/-- The 409 response of the duplicate pre-check branch; the field is
spelled `email` when the found record's email matches the submitted
(lower-cased) email, `ID number` otherwise. -/
def dupCheckResp (emailMatches : Bool) : Response :=
  ⟨409, false, dupMsg (if emailMatches then toStr "email" else toStr "ID number"),
   [], some dupEntryCode, none⟩

/-- The 409 response of the `error.code === 11000` catch branch; the
field is the schema key from `error.keyValue`. -/
def dupKeyResp (field : Str) : Response :=
  ⟨409, false, dupMsg field, [], some dupEntryCode, none⟩

/-- The 201 success response built from the saved document. -/
def successResp (r : StudentRec) : Response :=
  ⟨201, true,
   toStr "Enrollment application submitted successfully! Please check your email for confirmation details.",
   [], none,
   some ⟨r.id, toUpperStr (takeLast 8 r.id), r.email, r.course, r.status, r.createdAt⟩⟩

/-- Outcome of the two concurrent notification dispatches awaited inside
the handler's inner `try`. -/
inductive EmailOutcome where
  | sent
  | failed
deriving DecidableEq

/-- The success tail of the handler after `save()`: the two notification
dispatches are awaited inside an inner `try/catch` whose catch only logs
(the comment in the source reads `Don't fail the entire request if email
fails`), after which the 201 response is sent — identically for either
outcome. -/
def notifyAndRespond (eo : EmailOutcome) (saved : StudentRec) (st : Store) :
    Response × Store :=
  match eo with
  | .sent => (successResp saved, st ++ [saved])
  | .failed => (successResp saved, st ++ [saved])

/-- The `POST /send` handler (server.js lines 888-1036).

Inputs: `store` is the Record Store contents at the time of the
duplicate pre-check read; `raced` are documents inserted by concurrent
requests between that read and this request's `save()` (so `save()`
runs against `store ++ raced`); `newId` is the `_id` Mongo assigns;
`now` is the request time; `eo` is the outcome of the notification
dispatches.  Output: the response and the resulting Record Store
contents.

The notification block is inside its own `try/catch` whose catch only
logs, so the response is built identically for both email outcomes. -/
def postSend (store raced : Store) (newId : Str) (now : Int) (eo : EmailOutcome)
    (body : EnrollForm) (ip ua : Str) : Response × Store :=
  let sd := sanitizeForm body
  let errs := validateEnrollmentData now sd
  if 0 < errs.length then
    (validationFailedResp errs, store ++ raced)
  else
    match store.find? (dupPred (toLowerStr sd.email) sd.idnumber) with
    | some ex => (dupCheckResp (ex.email = toLowerStr sd.email), store ++ raced)
    | none =>
      match createStudent (store ++ raced) newId now (mkStudentData sd ip ua) with
      | .ok saved => notifyAndRespond eo saved (store ++ raced)
      | .error (.dupKey f) => (dupKeyResp f, store ++ raced)
      | .error (.invalid msgs) => (validationFailedResp msgs, store ++ raced)

/-! ### GET /api/students/:id -/

/-- `mongoose.Types.ObjectId.isValid` on a string: 24 hex characters. -/
def isValidObjectId (s : Str) : Bool :=
  s.length = 24 && s.all fun c =>
    c.isDigit || (Char.ofNat 97 ≤ c && c ≤ Char.ofNat 102) ||
    (Char.ofNat 65 ≤ c && c ≤ Char.ofNat 70)

/-- Outcome of `GET /api/students/:id`: a 400 on a malformed id, a 404
on a lookup miss, or the document. -/
inductive GetByIdResult where
  | badId
  | notFound
  | found (r : StudentRec)
deriving DecidableEq

/-- The `GET /api/students/:id` handler (server.js lines 1103-1132). -/
def getById (st : Store) (i : Str) : GetByIdResult :=
  if !isValidObjectId i then .badId
  else
    match st.find? (fun r => r.id = i) with
    | some r => .found r
    | none => .notFound

/-! ### The Express layer stacks of POST /send and POST /api/route -/

/-- The request as a route's middleware stack sees it. -/
structure Request where
  url : Str
  body : EnrollForm
  ip : Str
  userAgent : Str

/-- What one Express handler does with `(req, res, next)`: write a
response, call `next()`, or return having done neither (the request is
left pending and no further layer ever runs). -/
inductive LayerResult where
  | respond (r : Response)
  | next
  | pending

/-- An Express handler: may mutate `req` and produce a `LayerResult`. -/
abbrev Layer := Request → Request × LayerResult

/-- Express route dispatch over a route's handler stack: a layer's
`next()` passes the (possibly mutated) request to the following layer; a
layer that responds ends dispatch; a layer that does neither leaves the
request unanswered (`none`). -/
def runLayers : List Layer → Request → Option Response
  | [], _ => none
  | l :: ls, req =>
    match l req with
    | (_, .respond r) => some r
    | (req2, .next) => runLayers ls req2
    | (_, .pending) => none

/-- The 429 response of `formLimiter` (express-rate-limit). -/
def rateLimitResp : Response :=
  ⟨429, false, toStr "Too many enrollment attempts. Please try again in 15 minutes.",
   [], none, none⟩

/-- `formLimiter`: under the limit it calls `next()`, over it it
responds 429. -/
def formLimiterLayer (underLimit : Bool) : Layer :=
  fun req => (req, if underLimit then .next else .respond rateLimitResp)

/-- The handler stack of `app.post('/send', formLimiter, async ...)`. -/
def sendLayers (store raced : Store) (newId : Str) (now : Int) (eo : EmailOutcome)
    (underLimit : Bool) : List Layer :=
  [formLimiterLayer underLimit,
   fun req => (req, .respond (postSend store raced newId now eo req.body req.ip req.userAgent).1)]

/-- The handler stack of
`app.post('/api/route', (req, res, next) => \x7b req.url = '/send'; next(); \x7d, formLimiter, async (req, res) => \x7b\x7d)`
(server.js lines 1039-1045): the first middleware reassigns `req.url`
and calls `next()`, which advances within this same route's stack (it
does not re-enter routing, and the router never revisits the earlier
`/send` route); the final handler has an empty body, so it neither
responds nor calls `next()`. -/
def apiRouteLayers (underLimit : Bool) : List Layer :=
  [fun req => ({ req with url := toStr "/send" }, .next),
   formLimiterLayer underLimit,
   fun req => (req, .pending)]

/-- Dispatching `POST /send`. -/
def handleSend (store raced : Store) (newId : Str) (now : Int) (eo : EmailOutcome)
    (underLimit : Bool) (req : Request) : Option Response :=
  runLayers (sendLayers store raced newId now eo underLimit) req

/-- Dispatching `POST /api/route`. -/
def handleApiRoute (underLimit : Bool) (req : Request) : Option Response :=
  runLayers (apiRouteLayers underLimit) req

/-! ### Concrete test vectors -/

/-- A fully valid submission (spec section 8's concrete scenario, with a
schema-compliant address). -/
def annBody : EnrollForm where
  firstName := toStr "Ann"
  lastName := toStr "Lee"
  email := toStr "ANN@X.COM"
  phone := toStr "123-456-7890"
  idnumber := toStr "ID12345"
  dateOfBirth := toStr "2000-01-01"
  course := toStr "Computer Science"
  address := toStr "123 Main Street"
  city := toStr "Springfield"
  zipCode := toStr "00001"
  emergencyContact := toStr "Bob Lee"
  emergencyPhone := toStr "111-222-3333"

/-- 2000-01-01T00:00:00Z in milliseconds. -/
def wDobMs : Int := 946684800000

/-- A request time at which `annBody`'s computed age is exactly 20
(2020-01-01T00:00:00Z). -/
def wNow : Int := 1577836800000

/-- A fresh Mongo ObjectId for the new document. -/
def wId : Str := toStr "65a1b2c3d4e5f6a7b8c9d0e1"

/-- Client address of the test requests. -/
def wIp : Str := toStr "127.0.0.1"

/-- Client identifying string of the test requests. -/
def wUa : Str := toStr "integration-test"

/-- A record already in the store sharing `annBody`'s (lower-cased)
email but a different id number. -/
def annRec : StudentRec where
  id := toStr "65a1b2c3d4e5f6a7b8c9d0aa"
  firstName := toStr "Ann"
  lastName := toStr "Lee"
  email := toStr "ann@x.com"
  phone := toStr "123-456-7890"
  idnumber := toStr "ID00099"
  dateOfBirth := some wDobMs
  course := toStr "Computer Science"
  address := toStr "123 Main Street"
  city := toStr "Springfield"
  zipCode := toStr "00001"
  emergencyContact := toStr "Bob Lee"
  emergencyPhone := toStr "111-222-3333"
  status := toStr "pending"
  createdAt := 1577836700000
  ipAddress := toStr "127.0.0.1"
  userAgent := toStr "integration-test"

/-- A record sharing `annBody`'s id number but a different email — the
racing insert of the C4 scenario. -/
def raceRec : StudentRec where
  id := toStr "65a1b2c3d4e5f6a7b8c9d0bb"
  firstName := toStr "Cam"
  lastName := toStr "Roe"
  email := toStr "cam@x.com"
  phone := toStr "123-456-7890"
  idnumber := toStr "ID12345"
  dateOfBirth := some wDobMs
  course := toStr "Engineering"
  address := toStr "456 Oak Avenue"
  city := toStr "Springfield"
  zipCode := toStr "00002"
  emergencyContact := toStr "Dee Roe"
  emergencyPhone := toStr "222-333-4444"
  status := toStr "pending"
  createdAt := 1577836750000
  ipAddress := toStr "127.0.0.2"
  userAgent := toStr "integration-test"

/-- `annBody` with an empty first name and a whitespace-only city. -/
def missBody : EnrollForm :=
  { annBody with firstName := toStr "", city := toStr "  " }

/-- `annBody` with a date of birth `new Date` cannot parse. -/
def badDobBody : EnrollForm :=
  { annBody with dateOfBirth := toStr "13/13/2013" }

/-- The document `/send` persists for `annBody` at `wNow`. -/
def annSaved : StudentRec :=
  mongooseCast wId wNow (mkStudentData (sanitizeForm annBody) wIp wUa)

/-- The `annBody` submission as a request to `POST /api/route`. -/
def annReq : Request where
  url := toStr "/api/route"
  body := annBody
  ip := wIp
  userAgent := wUa

/-! ### String lemmas -/

/-- `dropWhile` is idempotent. -/
theorem dropWhile_dropWhile (p : Char → Bool) (l : Str) :
    (l.dropWhile p).dropWhile p = l.dropWhile p := by
  induction l with
  | nil => rfl
  | cons a l ih =>
    by_cases h : p a
    · simpa [List.dropWhile_cons_of_pos h] using ih
    · simp [List.dropWhile_cons_of_neg h, h]

/-- If `dropWhile p` leaves a list starting with `c` unchanged, `p c`
is false. -/
theorem head_false_of_dropWhile_eq (p : Char → Bool) (c : Char) (t : Str)
    (h : (c :: t).dropWhile p = c :: t) : p c = false := by
  by_cases hc : p c
  · exfalso
    rw [List.dropWhile_cons_of_pos hc] at h
    have hle := (List.dropWhile_sublist (l := t) p).length_le
    rw [h] at hle
    simp at hle
  · simpa using hc

/-- `jsTrim` output is stable under a further left `dropWhile`. -/
theorem dropWhile_jsTrim (s : Str) : (jsTrim s).dropWhile jsWs = jsTrim s := by
  unfold jsTrim
  set a := s.dropWhile jsWs with ha
  have haa : a.dropWhile jsWs = a := by rw [ha]; exact dropWhile_dropWhile jsWs s
  have hsuf : a.reverse.dropWhile jsWs <:+ a.reverse := List.dropWhile_suffix jsWs
  have hpre : (a.reverse.dropWhile jsWs).reverse <+: a := by
    rw [← List.reverse_suffix]
    simpa using hsuf
  rcases hpre with ⟨rest, hrest⟩
  cases hres : (a.reverse.dropWhile jsWs).reverse with
  | nil => simp
  | cons c t =>
    rw [hres] at hrest
    have hc : jsWs c = false := by
      apply head_false_of_dropWhile_eq jsWs c (t ++ rest)
      rw [List.cons_append] at hrest
      rw [hrest]
      exact haa
    rw [List.dropWhile_cons_of_neg (by simp [hc])]

/-- `jsTrim` is idempotent. -/
theorem jsTrim_idem (s : Str) : jsTrim (jsTrim s) = jsTrim s := by
  have h1 : (jsTrim s).dropWhile jsWs = jsTrim s := dropWhile_jsTrim s
  have hrev : (jsTrim s).reverse = (s.dropWhile jsWs).reverse.dropWhile jsWs := by
    unfold jsTrim
    rw [List.reverse_reverse]
  have h2 : (jsTrim s).reverse.dropWhile jsWs = (jsTrim s).reverse := by
    rw [hrev]
    exact dropWhile_dropWhile jsWs _
  calc jsTrim (jsTrim s)
      = (((jsTrim s).dropWhile jsWs).reverse.dropWhile jsWs).reverse := rfl
    _ = ((jsTrim s).reverse.dropWhile jsWs).reverse := by rw [h1]
    _ = ((jsTrim s).reverse).reverse := by rw [h2]
    _ = jsTrim s := List.reverse_reverse _

/-- Every character of `jsTrim s` is a character of `s`. -/
theorem mem_of_mem_jsTrim (c : Char) (s : Str) (h : c ∈ jsTrim s) : c ∈ s := by
  unfold jsTrim at h
  rw [List.mem_reverse] at h
  have h2 := List.dropWhile_subset jsWs h
  rw [List.mem_reverse] at h2
  exact List.dropWhile_subset jsWs h2

/-- `Char.ofNat` on the lower-case latin range. -/
theorem toNat_ofNat_lower (m : Nat) (h1 : 97 ≤ m) (h2 : m ≤ 122) :
    (Char.ofNat m).toNat = m := by
  interval_cases m <;> decide

/-- `Char.toLower` is idempotent (it only maps basic latin letters). -/
theorem toLower_toLower (c : Char) : c.toLower.toLower = c.toLower := by
  unfold Char.toLower
  by_cases h : c.toNat ≥ 65 ∧ c.toNat ≤ 90
  · rw [if_pos h]
    have hn : (Char.ofNat (c.toNat + 32)).toNat = c.toNat + 32 :=
      toNat_ofNat_lower _ (by omega) (by omega)
    rw [if_neg (by rw [hn]; omega)]
  · rw [if_neg h, if_neg h]

/-- `toLowerCase` is idempotent. -/
theorem toLowerStr_idem (s : Str) : toLowerStr (toLowerStr s) = toLowerStr s := by
  unfold toLowerStr
  rw [List.map_map]
  exact List.map_congr_left (fun c _ => toLower_toLower c)

/-! ### Validator lemmas -/

/-- A field that trims to empty contributes its presence error. -/
theorem mem_requiredErrors_of (d : EnrollForm) (f : FieldName) (hf : f ∈ requiredFields)
    (h : jsTrim (getField f d) = []) :
    fieldLabel f ++ reqSuffix ∈ requiredErrors d :=
  List.mem_filterMap.mpr ⟨f, hf, by rw [if_pos h]⟩

/-- Every presence error is of the shape `\x7bfield\x7d is required`. -/
theorem of_mem_requiredErrors (d : EnrollForm) (x : Str) (h : x ∈ requiredErrors d) :
    ∃ f, f ∈ requiredFields ∧ x = fieldLabel f ++ reqSuffix := by
  rcases List.mem_filterMap.mp h with ⟨f, hf, hx⟩
  refine ⟨f, hf, ?_⟩
  by_cases hc : jsTrim (getField f d) = []
  · rw [if_pos hc] at hx
    exact (Option.some_inj.mp hx).symm
  · rw [if_neg hc] at hx
    cases hx

/-- The age message is not a presence message. -/
theorem ageErr_not_required (d : EnrollForm) : ageErrMsg ∉ requiredErrors d := by
  intro h
  rcases of_mem_requiredErrors d _ h with ⟨f, _, heq⟩
  cases f <;> exact absurd heq (by decide)

/-- The age message occurs in the validator output exactly when the
date-of-birth branch emits it. -/
theorem ageErr_mem_validate (now : Int) (d : EnrollForm) :
    ageErrMsg ∈ validateEnrollmentData now d ↔ ageErrMsg ∈ dobErrors now d := by
  unfold validateEnrollmentData
  simp only [List.mem_append]
  constructor
  · rintro ((((h | h) | h) | h) | h)
    · exact absurd h (ageErr_not_required d)
    · revert h; split <;> (intro h; exact absurd h (by decide))
    · revert h; split <;> (intro h; exact absurd h (by decide))
    · revert h; split <;> (intro h; exact absurd h (by decide))
    · exact h
  · exact fun h => Or.inr h

/-- A string that parses as a date is non-empty. -/
theorem dob_nonempty_of_parse (s : Str) (ms : Int) (h : jsParseDate s = some ms) :
    s ≠ [] := by
  intro he
  subst he
  simp [jsParseDate] at h

/-! ### Claim C1 -/

/-- C1: the validator, run on the sanitized submission, collects every
presence violation: for every required field whose sanitized value is
empty after trimming, `\x7bfield\x7d is required` is in the returned error
list; and whenever at least one presence error exists, `POST /send`
terminates with the 400 `Validation failed` response carrying the full
collected list and writes nothing to the store. -/
theorem required_errors_all_collected (store : Store) (newId : Str) (now : Int)
    (eo : EmailOutcome) (body : EnrollForm) (ip ua : Str) :
    (∀ f ∈ requiredFields, jsTrim (getField f (sanitizeForm body)) = [] →
      fieldLabel f ++ reqSuffix ∈ validateEnrollmentData now (sanitizeForm body))
    ∧ (0 < (requiredErrors (sanitizeForm body)).length →
      postSend store [] newId now eo body ip ua
        = (validationFailedResp (validateEnrollmentData now (sanitizeForm body)), store)) := by
  constructor
  · intro f hf h
    unfold validateEnrollmentData
    exact List.mem_append_left _ (List.mem_append_left _ (List.mem_append_left _
      (List.mem_append_left _ (mem_requiredErrors_of _ f hf h))))
  · intro hlen
    have hv : 0 < (validateEnrollmentData now (sanitizeForm body)).length := by
      unfold validateEnrollmentData
      simp only [List.length_append]
      omega
    simp only [postSend]
    rw [if_pos hv, List.append_nil]

/-- C1 witness: a submission with an empty first name and a
whitespace-only city gets both presence errors and the 400 outcome. -/
theorem required_errors_all_collected_witness :
    (toStr "firstName" ++ reqSuffix ∈ validateEnrollmentData wNow (sanitizeForm missBody))
    ∧ (toStr "city" ++ reqSuffix ∈ validateEnrollmentData wNow (sanitizeForm missBody))
    ∧ postSend [] [] wId wNow .sent missBody wIp wUa
        = (validationFailedResp (validateEnrollmentData wNow (sanitizeForm missBody)), []) :=
  ⟨(required_errors_all_collected [] wId wNow .sent missBody wIp wUa).1
      .firstName (by decide) (by decide),
   (required_errors_all_collected [] wId wNow .sent missBody wIp wUa).1
      .city (by decide) (by decide),
   (required_errors_all_collected [] wId wNow .sent missBody wIp wUa).2 (by decide)⟩

/-! ### Claim C6 -/

/-- C6: for a date of birth that parses to `ms`, the validator emits the
age-bound error exactly when `floor((now − ms) / 31557600000)` — the
source's `Math.floor((new Date() − birthDate) / (365.25*24*60*60*1000))`
— lies outside `[16, 100]`; ages 16 and 100 pass, 15 and 101 fail, as
instances of the equivalence. -/
theorem age_bound_exact (now : Int) (d : EnrollForm) (ms : Int)
    (h : jsParseDate d.dateOfBirth = some ms) :
    (ageErrMsg ∈ validateEnrollmentData now d)
      ↔ (jsAge now ms < 16 ∨ 100 < jsAge now ms) := by
  rw [ageErr_mem_validate]
  unfold dobErrors
  rw [if_pos (dob_nonempty_of_parse _ _ h), h]
  split <;> simp_all

/-- C6 witness: at `wNow` the sample date of birth gives age 20, so the
bound equivalence holds concretely (and no error is emitted). -/
theorem age_bound_exact_witness :
    ((ageErrMsg ∈ validateEnrollmentData wNow (sanitizeForm annBody))
      ↔ (jsAge wNow wDobMs < 16 ∨ 100 < jsAge wNow wDobMs))
    ∧ ageErrMsg ∉ validateEnrollmentData wNow (sanitizeForm annBody) :=
  ⟨age_bound_exact wNow (sanitizeForm annBody) wDobMs (by decide),
   fun hmem => absurd ((age_bound_exact wNow (sanitizeForm annBody) wDobMs (by decide)).mp hmem)
     (by decide)⟩

/-! ### Claim C9 -/

/-- C9: when the date of birth is non-empty after trimming but does not
parse (`new Date` yields an Invalid Date, so the computed age is NaN and
both bound comparisons are false), the validator emits no age-bound
error. -/
theorem invalid_dob_no_age_error (now : Int) (d : EnrollForm)
    (hne : jsTrim d.dateOfBirth ≠ []) (hp : jsParseDate d.dateOfBirth = none) :
    ageErrMsg ∉ validateEnrollmentData now d := by
  rw [ageErr_mem_validate]
  unfold dobErrors
  have hds : d.dateOfBirth ≠ [] := by
    intro he
    apply hne
    rw [he]
    rfl
  rw [if_pos hds, hp]
  simp

/-- C9 witness: a submission whose date of birth is `13/13/2013` gets no
age error — indeed it passes the whole validator. -/
theorem invalid_dob_no_age_error_witness :
    ageErrMsg ∉ validateEnrollmentData wNow (sanitizeForm badDobBody)
    ∧ validateEnrollmentData wNow (sanitizeForm badDobBody) = [] :=
  ⟨invalid_dob_no_age_error wNow (sanitizeForm badDobBody) (by decide) (by decide),
   by decide⟩

/-! ### Claim C2 -/

/-- C2: when the validator reports at least one error, `POST /send`
returns the 400 `Validation failed` response carrying the collected
error list, and the store is exactly what it was — no record is
written. -/
theorem validation_failure_atomic (store : Store) (newId : Str) (now : Int)
    (eo : EmailOutcome) (body : EnrollForm) (ip ua : Str)
    (h : validateEnrollmentData now (sanitizeForm body) ≠ []) :
    postSend store [] newId now eo body ip ua
      = (validationFailedResp (validateEnrollmentData now (sanitizeForm body)), store)
    ∧ (validationFailedResp (validateEnrollmentData now (sanitizeForm body))).status = 400
    ∧ (validationFailedResp (validateEnrollmentData now (sanitizeForm body))).errors
        = validateEnrollmentData now (sanitizeForm body) := by
  refine ⟨?_, rfl, rfl⟩
  simp only [postSend]
  rw [if_pos (List.length_pos.mpr h), List.append_nil]

/-- C2 witness at the submission with missing fields. -/
theorem validation_failure_atomic_witness :
    postSend [annRec] [] wId wNow .sent missBody wIp wUa
      = (validationFailedResp (validateEnrollmentData wNow (sanitizeForm missBody)), [annRec]) :=
  (validation_failure_atomic [annRec] wId wNow .sent missBody wIp wUa (by decide)).1

/-! ### Claim C3 -/

/-- C3: a submission that passes validation but whose (lower-cased)
email or id number is already held by a stored record is rejected with a
409 `DUPLICATE_ENTRY` conflict and no record is created; the message
names `email` whenever the record `findOne` returns matches on email (in
particular when both fields collide), and `ID number` otherwise. -/
theorem duplicate_precheck_conflict (store : Store) (newId : Str) (now : Int)
    (eo : EmailOutcome) (body : EnrollForm) (ip ua : Str)
    (hv : validateEnrollmentData now (sanitizeForm body) = [])
    (hd : ∃ r ∈ store,
      dupPred (toLowerStr (sanitizeForm body).email) (sanitizeForm body).idnumber r) :
    (postSend store [] newId now eo body ip ua).1.status = 409
    ∧ (postSend store [] newId now eo body ip ua).1.code = some dupEntryCode
    ∧ (postSend store [] newId now eo body ip ua).2 = store
    ∧ ∀ r, store.find? (dupPred (toLowerStr (sanitizeForm body).email)
          (sanitizeForm body).idnumber) = some r →
        ((r.email = toLowerStr (sanitizeForm body).email →
          (postSend store [] newId now eo body ip ua).1.message = dupMsg (toStr "email"))
        ∧ (r.email ≠ toLowerStr (sanitizeForm body).email →
          (postSend store [] newId now eo body ip ua).1.message = dupMsg (toStr "ID number"))) := by
  have hopt : (store.find? (dupPred (toLowerStr (sanitizeForm body).email)
      (sanitizeForm body).idnumber)).isSome := by
    rw [List.find?_isSome]
    rcases hd with ⟨r, hr, hp⟩
    exact ⟨r, hr, hp⟩
  rcases Option.isSome_iff_exists.mp hopt with ⟨ex, hex⟩
  have hps : postSend store [] newId now eo body ip ua
      = (dupCheckResp (ex.email = toLowerStr (sanitizeForm body).email), store) := by
    simp only [postSend]
    rw [if_neg (by simp [hv]), hex, List.append_nil]
  refine ⟨by rw [hps]; rfl, by rw [hps]; rfl, by rw [hps], ?_⟩
  intro r hr
  rw [hex] at hr
  cases hr
  constructor
  · intro hem
    rw [hps]
    simp [dupCheckResp, hem]
  · intro hem
    rw [hps]
    simp [dupCheckResp, hem]

/-- C3 witness: resubmitting Ann's data against a store already holding
her email yields the 409 naming `email` and leaves the store as is. -/
theorem duplicate_precheck_conflict_witness :
    (postSend [annRec] [] wId wNow .sent annBody wIp wUa).1.status = 409
    ∧ (postSend [annRec] [] wId wNow .sent annBody wIp wUa).1.code = some dupEntryCode
    ∧ (postSend [annRec] [] wId wNow .sent annBody wIp wUa).2 = [annRec]
    ∧ (postSend [annRec] [] wId wNow .sent annBody wIp wUa).1.message
        = dupMsg (toStr "email") := by
  have h := duplicate_precheck_conflict [annRec] wId wNow .sent annBody wIp wUa
    (by decide) ⟨annRec, by decide, by decide⟩
  exact ⟨h.1, h.2.1, h.2.2.1, (h.2.2.2 annRec (by decide)).1 (by decide)⟩

/-! ### Claim C4 -/

/-- C4 counterexample: a racing insert of `raceRec` (same id number as
`annBody`, different email) between the pre-check read and `save()`
produces a 409 `DUPLICATE_ENTRY` response, but its message spells the
field `idnumber` (the schema key from `error.keyValue`) where the
`DuplicateFound` branch — reached when `raceRec` is already stored at
pre-check time — spells it `ID number`; the two externally visible
outcomes are not identical. -/
theorem race_conflict_not_identical :
    (postSend [] [raceRec] wId wNow .sent annBody wIp wUa).1.status = 409
    ∧ (postSend [] [raceRec] wId wNow .sent annBody wIp wUa).1.code = some dupEntryCode
    ∧ (postSend [raceRec] [] wId wNow .sent annBody wIp wUa).1.status = 409
    ∧ (postSend [] [raceRec] wId wNow .sent annBody wIp wUa).1.message
        ≠ (postSend [raceRec] [] wId wNow .sent annBody wIp wUa).1.message := by
  refine ⟨?_, ?_, ?_, ?_⟩ <;> decide

/-- C4 (amended): a uniqueness violation raised by `save()` (a race past
the pre-check) yields a 409 conflict with code `DUPLICATE_ENTRY` naming
the offending field — never a 500 — and writes nothing beyond the racing
insert; the field is the schema key (`email` or `idnumber`), so for an
email collision the response coincides exactly with the `DuplicateFound`
response, while for an id-number collision the message spells the field
`idnumber` where the pre-check branch spells it `ID number`. -/
theorem race_dup_conflict (store raced : Store) (newId : Str) (now : Int)
    (eo : EmailOutcome) (body : EnrollForm) (ip ua f : Str)
    (hv : validateEnrollmentData now (sanitizeForm body) = [])
    (hf : store.find? (dupPred (toLowerStr (sanitizeForm body).email)
        (sanitizeForm body).idnumber) = none)
    (hc : createStudent (store ++ raced) newId now
        (mkStudentData (sanitizeForm body) ip ua) = .error (.dupKey f)) :
    postSend store raced newId now eo body ip ua = (dupKeyResp f, store ++ raced)
    ∧ (dupKeyResp f).status = 409
    ∧ (dupKeyResp f).code = some dupEntryCode
    ∧ (dupKeyResp f).message = dupMsg f
    ∧ (f = toStr "email" ∨ f = toStr "idnumber") := by
  refine ⟨?_, rfl, rfl, rfl, ?_⟩
  · simp only [postSend]
    rw [if_neg (by simp [hv]), hf, hc]
  · simp only [createStudent] at hc
    split at hc
    · simp at hc
    · split at hc
      · simp only [Except.error.injEq, SaveErr.dupKey.injEq] at hc
        exact Or.inl hc.symm
      · split at hc
        · simp only [Except.error.injEq, SaveErr.dupKey.injEq] at hc
          exact Or.inr hc.symm
        · simp at hc

/-- C4 amended-claim witness: the concrete id-number race. -/
theorem race_dup_conflict_witness :
    postSend [] [raceRec] wId wNow .sent annBody wIp wUa
      = (dupKeyResp (toStr "idnumber"), [raceRec]) :=
  (race_dup_conflict [] [raceRec] wId wNow .sent annBody wIp wUa (toStr "idnumber")
    (by decide) (by decide) (by decide)).1

/-! ### Claim C5 -/

/-- C5: a submission that passes validation, the pre-check, and
`save()` is reported 201 with the persisted record's identity, derived
application id, normalized email, course, status and creation timestamp
— for both notification outcomes alike, since the email block's failures
are caught, logged and swallowed. -/
theorem persisted_success_regardless_of_email (store raced : Store) (newId : Str)
    (now : Int) (body : EnrollForm) (ip ua : Str) (r : StudentRec)
    (hv : validateEnrollmentData now (sanitizeForm body) = [])
    (hf : store.find? (dupPred (toLowerStr (sanitizeForm body).email)
        (sanitizeForm body).idnumber) = none)
    (hc : createStudent (store ++ raced) newId now
        (mkStudentData (sanitizeForm body) ip ua) = .ok r) :
    (∀ eo, postSend store raced newId now eo body ip ua
      = (successResp r, store ++ raced ++ [r]))
    ∧ (successResp r).status = 201
    ∧ (successResp r).success = true
    ∧ (successResp r).rdata = some ⟨r.id, toUpperStr (takeLast 8 r.id), r.email,
        r.course, r.status, r.createdAt⟩ := by
  refine ⟨?_, rfl, rfl, rfl⟩
  have hnv : ¬ 0 < (validateEnrollmentData now (sanitizeForm body)).length := by
    rw [hv]
    simp
  intro eo
  simp only [postSend]
  rw [if_neg hnv, hf, hc]
  cases eo <;> rfl

/-- C5 witness: Ann's submission persists and is reported 201 even when
the notification dispatch fails. -/
theorem persisted_success_regardless_of_email_witness :
    postSend [] [] wId wNow .failed annBody wIp wUa = (successResp annSaved, [annSaved])
    ∧ postSend [] [] wId wNow .sent annBody wIp wUa = (successResp annSaved, [annSaved]) := by
  have h := persisted_success_regardless_of_email [] [] wId wNow annBody wIp wUa annSaved
    (by decide) (by decide) (by decide)
  exact ⟨h.1 .failed, h.1 .sent⟩

/-! ### Claim C7 -/

/-- C7: a successfully persisted submission, fetched back by its
identity via `getById`, returns the normalized field values: every
string field is the trimmed, `< > \" '`-free form of what was submitted,
the email is additionally lower-cased, and the date of birth is the
parsed date value. -/
theorem roundtrip_normalized (store : Store) (newId : Str) (now : Int)
    (eo : EmailOutcome) (body : EnrollForm) (ip ua : Str) (r : StudentRec)
    (hv : validateEnrollmentData now (sanitizeForm body) = [])
    (hf : store.find? (dupPred (toLowerStr (sanitizeForm body).email)
        (sanitizeForm body).idnumber) = none)
    (hc : createStudent store newId now (mkStudentData (sanitizeForm body) ip ua) = .ok r)
    (hid : isValidObjectId newId = true)
    (hfresh : ∀ x ∈ store, x.id ≠ newId) :
    getById (postSend store [] newId now eo body ip ua).2 newId = .found r
    ∧ r.firstName = jsTrim (sanitizeStr body.firstName)
    ∧ r.lastName = jsTrim (sanitizeStr body.lastName)
    ∧ r.email = jsTrim (toLowerStr (sanitizeStr body.email))
    ∧ r.phone = jsTrim (sanitizeStr body.phone)
    ∧ r.idnumber = jsTrim (sanitizeStr body.idnumber)
    ∧ r.dateOfBirth = jsParseDate (sanitizeStr body.dateOfBirth)
    ∧ r.course = jsTrim (sanitizeStr body.course)
    ∧ r.address = jsTrim (sanitizeStr body.address)
    ∧ r.city = jsTrim (sanitizeStr body.city)
    ∧ r.zipCode = jsTrim (sanitizeStr body.zipCode)
    ∧ r.emergencyContact = jsTrim (sanitizeStr body.emergencyContact)
    ∧ r.emergencyPhone = jsTrim (sanitizeStr body.emergencyPhone) := by
  have hr : r = mongooseCast newId now (mkStudentData (sanitizeForm body) ip ua) := by
    simp only [createStudent] at hc
    split at hc
    · simp at hc
    · split at hc
      · simp at hc
      · split at hc
        · simp at hc
        · simp only [Except.ok.injEq] at hc
          exact hc.symm
  have hid2 : r.id = newId := by rw [hr]; rfl
  have hps : (postSend store [] newId now eo body ip ua).2 = store ++ [r] := by
    have hnv : ¬ 0 < (validateEnrollmentData now (sanitizeForm body)).length := by
      rw [hv]
      simp
    simp only [postSend]
    rw [if_neg hnv, hf]
    simp only [List.append_nil]
    rw [hc]
    cases eo <;> rfl
  refine ⟨?_, ?_, ?_, ?_, ?_, ?_, ?_, ?_, ?_, ?_, ?_, ?_, ?_⟩
  · rw [hps]
    unfold getById
    rw [if_neg (by simp [hid])]
    have hnone : store.find? (fun x => x.id = newId) = none :=
      List.find?_eq_none.mpr (fun x hx => by simp [hfresh x hx])
    have hfind : (store ++ [r]).find? (fun x => x.id = newId) = some r := by
      rw [List.find?_append, hnone]
      simp [hid2]
    rw [hfind]
  · rw [hr]; rfl
  · rw [hr]; rfl
  · rw [hr]
    show jsTrim (toLowerStr (toLowerStr (sanitizeStr body.email)))
      = jsTrim (toLowerStr (sanitizeStr body.email))
    rw [toLowerStr_idem]
  · rw [hr]; rfl
  · rw [hr]; rfl
  · rw [hr]; rfl
  · rw [hr]; rfl
  · rw [hr]; rfl
  · rw [hr]; rfl
  · rw [hr]; rfl
  · rw [hr]; rfl
  · rw [hr]; rfl

/-- C7 witness: Ann's stored record comes back normalized — in
particular the stored email is the lower-cased `ann@x.com`, not the raw
`ANN@X.COM`. -/
theorem roundtrip_normalized_witness :
    getById (postSend [] [] wId wNow .sent annBody wIp wUa).2 wId = .found annSaved
    ∧ annSaved.email = jsTrim (toLowerStr (sanitizeStr annBody.email))
    ∧ annSaved.email ≠ annBody.email := by
  have h := roundtrip_normalized [] wId wNow .sent annBody wIp wUa annSaved
    (by decide) (by decide) (by decide) (by decide) (by simp)
  exact ⟨h.1, h.2.2.2.1, by decide⟩

/-! ### Claim C8 -/

/-- C8 (code-bug evidence): `POST /api/route` is not equivalent to
`POST /send`.  Its first middleware reassigns `req.url` and calls
`next()`, which merely advances within this route's own stack, and its
final handler `async (req, res) => \x7b\x7d` neither responds nor calls
`next()`, so no request to `/api/route` under the rate limit is ever
answered — while `/send` answers every request; on Ann's valid
submission `/send` responds 201 and `/api/route` produces nothing. -/
theorem apiRoute_not_equivalent_to_send :
    (∀ req, handleApiRoute true req = none)
    ∧ (∀ store raced newId now eo req,
        handleSend store raced newId now eo true req
          = some (postSend store raced newId now eo req.body req.ip req.userAgent).1)
    ∧ handleApiRoute true annReq = none
    ∧ handleSend [] [] wId wNow .sent true annReq = some (successResp annSaved)
    ∧ (successResp annSaved).status = 201 := by
  refine ⟨?_, ?_, rfl, by decide, rfl⟩
  · intro req
    rfl
  · intro store raced newId now eo req
    rfl

/-! ### Claim C10 -/

/-- C10 counterexample: `sanitizeInput` is not idempotent on strings,
and its output can retain leading whitespace — on `"< a"` it removes the
`<` leading edge after trimming and leaves `" a"`, which a second
application shortens to `"a"`. -/
theorem sanitizeInput_not_idempotent :
    sanitizeInput (sanitizeInput (.vstr (toStr "< a"))) ≠ sanitizeInput (.vstr (toStr "< a"))
    ∧ (sanitizeStr (toStr "< a")).head? = some ' ' := by
  constructor
  · intro h
    have h2 : sanitizeStr (sanitizeStr (toStr "< a")) = sanitizeStr (toStr "< a") := by
      simpa [sanitizeInput] using h
    exact absurd h2 (by decide)
  · decide

/-- C10 (amended): `sanitizeInput`'s output never contains any of
`< > \" '`, and every non-string input is returned unchanged — so
non-string JSON body values reach validation and persistence
unsanitized; but the output may retain leading or trailing whitespace
uncovered by character removal (trimming happens before removal), so
`sanitizeInput` is idempotent only on strings already free of those four
characters, not on all strings. -/
theorem sanitizeInput_amended :
    (∀ (s : Str) (c : Char), c ∈ sanitizeStr s → badChars.contains c = false)
    ∧ (∀ s : Str, (∀ c ∈ s, badChars.contains c = false) →
        sanitizeInput (sanitizeInput (.vstr s)) = sanitizeInput (.vstr s))
    ∧ (∀ n, sanitizeInput (.vnum n) = .vnum n)
    ∧ (∀ b, sanitizeInput (.vbool b) = .vbool b)
    ∧ sanitizeInput .vnull = .vnull
    ∧ (∀ fs, sanitizeInput (.vobj fs) = .vobj fs) := by
  refine ⟨?_, ?_, fun n => rfl, fun b => rfl, rfl, fun fs => rfl⟩
  · intro s c h
    unfold sanitizeStr removeBadChars at h
    rw [List.mem_filter] at h
    simpa using h.2
  · intro s hs
    have htr : ∀ c ∈ jsTrim s, badChars.contains c = false :=
      fun c hc => hs c (mem_of_mem_jsTrim c s hc)
    have h1 : sanitizeStr s = jsTrim s := by
      unfold sanitizeStr removeBadChars
      exact List.filter_eq_self.mpr (fun c hc => by simpa using htr c hc)
    show JSValue.vstr (sanitizeStr (sanitizeStr s)) = JSValue.vstr (sanitizeStr s)
    rw [h1]
    have h2 : sanitizeStr (jsTrim s) = jsTrim s := by
      unfold sanitizeStr
      rw [jsTrim_idem]
      unfold removeBadChars
      exact List.filter_eq_self.mpr (fun c hc => by simpa using htr c hc)
    rw [h2]

/-- C10 amended-claim witness: a clean string is a fixed point after one
application. -/
theorem sanitizeInput_amended_witness :
    sanitizeInput (sanitizeInput (.vstr (toStr " Ann Lee "))) = sanitizeInput (.vstr (toStr " Ann Lee ")) :=
  sanitizeInput_amended.2.1 (toStr " Ann Lee ") (by decide)

end Enroll
